import Mathlib

/-!
Verification of the bridge layer in `src/wrappers.cc` of llvm-rs.

The bridge forwards a handful of calls into the LLVM library.  The wrapper
control flow (`LLVMVerifyFunction2`, `LLVMGetOrInsertFunction`,
`LLVMGetOrInsertGlobal`, `LLVMVersionMajor`, `LLVMVersionMinor`) is embedded
directly from the source; the external LLVM library itself (the structural
verifier, `Module::getOrInsertFunction`, `Module::getOrInsertGlobal`, the
version macros) is not part of this repository and is modelled from the spec,
as marked on each such definition.
-/

namespace LLVMRS

/-- The three verifier failure actions of the C API
(`LLVMVerifierFailureAction` from `llvm-c/Analysis.h`). -/
inductive LLVMVerifierFailureAction where
  | LLVMAbortProcessAction
  | LLVMPrintMessageAction
  | LLVMReturnStatusAction
deriving DecidableEq, Repr

/-- Modelled from the spec: a function handle as seen by the external
structural verifier (which lives in the LLVM library, outside this
repository).  `broken` records whether the verifier finds a structural
violation in the function; `diag` is the diagnostic text the verifier prints
in that case. -/
structure LLVMFunction where
  broken : Bool
  diag : String
deriving DecidableEq, Repr

/-- Modelled from the spec: the text `llvm::verifyFunction` writes to the
stream it is handed — the diagnostic text when the function is broken,
nothing otherwise. -/
def verifierStreamOutput (Fn : LLVMFunction) : String :=
  if Fn.broken then Fn.diag else ""

/-- Modelled from the spec: the underlying verifier produces a non-empty
diagnostic for every structurally invalid function. -/
def WellFormedDiag (Fn : LLVMFunction) : Prop :=
  Fn.broken = true → Fn.diag ≠ ""

instance (Fn : LLVMFunction) : Decidable (WellFormedDiag Fn) := by
  unfold WellFormedDiag; infer_instance

/-- The observable outcome of one call to `LLVMVerifyFunction2`:
whether the process was terminated by `report_fatal_error`; the boolean the
call returns (the value of `Result` — delivered to the caller only when
`aborted = false`); everything the wrapper wrote to the standard error
stream through `DebugOS`; and the string stored through the `OutMessages`
out-parameter (`none` when the out-parameter was never written). -/
structure VerifyResult where
  aborted : Bool
  result : Bool
  stderrOut : String
  outWritten : Option String
deriving DecidableEq, Repr

/-- Shallow embedding of `LLVMVerifyFunction2` from `src/wrappers.cc`.
`outRequested` states whether the `OutMessages` out-parameter is non-null.

The C body, line by line:
`DebugOS = Action != LLVMReturnStatusAction ? &errs() : nullptr;`
`Result  = verifyFunction(*unwrap<Function>(Fn), OutMessages ? &MsgsOS : DebugOS);`
`if (DebugOS && OutMessages) *DebugOS << MsgsOS.str();`
`if (Action == LLVMAbortProcessAction && Result) report_fatal_error(...);`
`if (OutMessages) *OutMessages = strdup(MsgsOS.str().c_str());`
`return Result;` -/
def LLVMVerifyFunction2 (Fn : LLVMFunction) (Action : LLVMVerifierFailureAction)
    (outRequested : Bool) : VerifyResult :=
  let hasDebugOS : Bool := !(Action == LLVMVerifierFailureAction.LLVMReturnStatusAction)
  let Result : Bool := Fn.broken
  let Messages : String := if outRequested then verifierStreamOutput Fn else ""
  let stderrDirect : String :=
    if !outRequested && hasDebugOS then verifierStreamOutput Fn else ""
  let stderrAll : String :=
    stderrDirect ++ (if hasDebugOS && outRequested then Messages else "")
  if Action = LLVMVerifierFailureAction.LLVMAbortProcessAction ∧ Result = true then
    { aborted := true, result := Result, stderrOut := stderrAll, outWritten := none }
  else
    { aborted := false, result := Result, stderrOut := stderrAll,
      outWritten := if outRequested then some Messages else none }

/-- Modelled from the spec: the compile-time `LLVM_VERSION_MAJOR` constant of
the linked library build.  The exact number is fixed at build time; `3`
stands for one concrete build of the 3.x line this code targets. -/
def LLVM_VERSION_MAJOR : Nat := 3

/-- Modelled from the spec: the compile-time `LLVM_VERSION_MINOR` constant of
the linked library build. -/
def LLVM_VERSION_MINOR : Nat := 8

/-- Process-visible state threaded through the version calls, so that
side-effect freedom is statable: the calls neither read nor write it. -/
structure ProcState where
  stderrLog : String
deriving DecidableEq, Repr

/-- Shallow embedding of `LLVMVersionMajor` from `src/wrappers.cc`: returns
the compile-time constant and leaves the process state untouched. -/
def LLVMVersionMajor (s : ProcState) : Nat × ProcState :=
  (LLVM_VERSION_MAJOR, s)

/-- Shallow embedding of `LLVMVersionMinor` from `src/wrappers.cc`. -/
def LLVMVersionMinor (s : ProcState) : Nat × ProcState :=
  (LLVM_VERSION_MINOR, s)

/-- Modelled from the spec: a module as a container of named function
declarations and named global variables, each entry pairing the symbol name
with the type handle it was declared at.  List position is creation order. -/
structure LLVMModule where
  functions : List (String × Nat)
  globals : List (String × Nat)
deriving DecidableEq, Repr

/-- Modelled from the spec: `Module::getOrInsertFunction` (external LLVM
library) — look the name up among the module's functions; when absent,
declare one with the requested type.  The returned handle is the entry of
that name in the module, so a repeated call returns the identical handle and
ignores its type argument. -/
def getOrInsertFunction (m : LLVMModule) (name : String) (ty : Nat) :
    LLVMModule × (String × Nat) :=
  match m.functions.find? (fun p => p.1 == name) with
  | some f => (m, f)
  | none => ({ m with functions := m.functions ++ [(name, ty)] }, (name, ty))

/-- Modelled from the spec: `Module::getOrInsertGlobal` (external LLVM
library) — the same lookup-or-create policy for module-level globals. -/
def getOrInsertGlobal (m : LLVMModule) (name : String) (ty : Nat) :
    LLVMModule × (String × Nat) :=
  match m.globals.find? (fun p => p.1 == name) with
  | some g => (m, g)
  | none => ({ m with globals := m.globals ++ [(name, ty)] }, (name, ty))

/-- Shallow embedding of `LLVMGetOrInsertFunction` from `src/wrappers.cc`:
a pure forwarding call into the library. -/
def LLVMGetOrInsertFunction (M : LLVMModule) (Name : String) (FunctionTy : Nat) :
    LLVMModule × (String × Nat) :=
  getOrInsertFunction M Name FunctionTy

/-- Shallow embedding of `LLVMGetOrInsertGlobal` from `src/wrappers.cc`. -/
def LLVMGetOrInsertGlobal (M : LLVMModule) (Name : String) (Ty : Nat) :
    LLVMModule × (String × Nat) :=
  getOrInsertGlobal M Name Ty

/-- Helper: the boolean the wrapper computes is always the verifier's
verdict on the function, whatever the action and out-parameter. -/
theorem verify2_result_eq_broken (Fn : LLVMFunction)
    (Action : LLVMVerifierFailureAction) (o : Bool) :
    (LLVMVerifyFunction2 Fn Action o).result = Fn.broken := by
  cases Action <;> cases hb : Fn.broken <;> simp [LLVMVerifyFunction2, hb]

/-- Helper: the abort flag is set exactly on abort-action plus violation. -/
theorem verify2_aborted_iff (Fn : LLVMFunction)
    (Action : LLVMVerifierFailureAction) (o : Bool) :
    (LLVMVerifyFunction2 Fn Action o).aborted = true ↔
      (Action = LLVMVerifierFailureAction.LLVMAbortProcessAction ∧
        Fn.broken = true) := by
  cases Action <;> cases hb : Fn.broken <;> simp [LLVMVerifyFunction2, hb]

/-- Helper: shape of the out-parameter on non-aborting calls. -/
theorem verify2_outWritten (Fn : LLVMFunction)
    (Action : LLVMVerifierFailureAction) (o : Bool)
    (hret : (LLVMVerifyFunction2 Fn Action o).aborted = false) :
    (LLVMVerifyFunction2 Fn Action o).outWritten =
      if o then some (verifierStreamOutput Fn) else none := by
  cases Action <;> cases hb : Fn.broken <;>
    simp_all [LLVMVerifyFunction2, hb]

/-- C1: `LLVMVerifyFunction2` returns `true` exactly when the verifier found
a structural violation in the function; on a structurally invalid function a
returning call with a requested message buffer yields the verifier's
non-empty diagnostic string. -/
theorem verify2_broken_polarity (Fn : LLVMFunction)
    (Action : LLVMVerifierFailureAction) (o : Bool)
    (hdiag : WellFormedDiag Fn) :
    ((LLVMVerifyFunction2 Fn Action o).result = true ↔ Fn.broken = true) ∧
    (Fn.broken = true → o = true →
      (LLVMVerifyFunction2 Fn Action o).aborted = false →
      (LLVMVerifyFunction2 Fn Action o).outWritten = some Fn.diag ∧
        Fn.diag ≠ "") := by
  refine ⟨by rw [verify2_result_eq_broken], ?_⟩
  intro hb ho hret
  refine ⟨?_, hdiag hb⟩
  rw [verify2_outWritten Fn Action o hret, ho]
  simp [verifierStreamOutput, hb]

/-- Witness for C1 at a concrete broken function with a message buffer and
the print-message action. -/
theorem verify2_broken_polarity_witness :
    ((LLVMVerifyFunction2 ⟨true, "no terminator"⟩
        LLVMVerifierFailureAction.LLVMPrintMessageAction true).result = true ↔
      (⟨true, "no terminator"⟩ : LLVMFunction).broken = true) ∧
    ((⟨true, "no terminator"⟩ : LLVMFunction).broken = true → true = true →
      (LLVMVerifyFunction2 ⟨true, "no terminator"⟩
        LLVMVerifierFailureAction.LLVMPrintMessageAction true).aborted = false →
      (LLVMVerifyFunction2 ⟨true, "no terminator"⟩
        LLVMVerifierFailureAction.LLVMPrintMessageAction true).outWritten =
          some (⟨true, "no terminator"⟩ : LLVMFunction).diag ∧
        (⟨true, "no terminator"⟩ : LLVMFunction).diag ≠ "") :=
  verify2_broken_polarity ⟨true, "no terminator"⟩
    LLVMVerifierFailureAction.LLVMPrintMessageAction true (by decide)

/-- C2 counterexample: with the return-status action and a requested message
buffer on a broken function, the diagnostic text reaches the message buffer
but nothing at all is written to the standard error stream — the claimed
duplication "regardless of the chosen action" fails for the return-status
action (the source sets `DebugOS` to null there). -/
theorem verify2_stderr_not_duplicated_on_returnStatus :
    (LLVMVerifyFunction2 ⟨true, "bad"⟩
        LLVMVerifierFailureAction.LLVMReturnStatusAction true).outWritten =
      some "bad" ∧
    (LLVMVerifyFunction2 ⟨true, "bad"⟩
        LLVMVerifierFailureAction.LLVMReturnStatusAction true).stderrOut = "" := by
  exact ⟨rfl, rfl⟩

/-- C2 amended: when a message buffer is requested, the diagnostic text is
duplicated to the standard error stream exactly when the failure action is
not the return-status action. -/
theorem verify2_stderr_duplicated_unless_returnStatus (Fn : LLVMFunction)
    (Action : LLVMVerifierFailureAction)
    (hact : Action ≠ LLVMVerifierFailureAction.LLVMReturnStatusAction) :
    (LLVMVerifyFunction2 Fn Action true).stderrOut = verifierStreamOutput Fn := by
  cases Action <;> cases hb : Fn.broken <;>
    simp_all [LLVMVerifyFunction2, verifierStreamOutput, hb]

/-- Witness for the amended C2 at a concrete broken function with the
print-message action. -/
theorem verify2_stderr_duplicated_witness :
    (LLVMVerifyFunction2 ⟨true, "bad"⟩
        LLVMVerifierFailureAction.LLVMPrintMessageAction true).stderrOut =
      verifierStreamOutput ⟨true, "bad"⟩ :=
  verify2_stderr_duplicated_unless_returnStatus ⟨true, "bad"⟩
    LLVMVerifierFailureAction.LLVMPrintMessageAction (by decide)

/-- C3: the call terminates the process if and only if the failure action is
abort-process and the verifier found a violation; in every other combination
the call returns normally. -/
theorem verify2_abort_iff (Fn : LLVMFunction)
    (Action : LLVMVerifierFailureAction) (o : Bool) :
    (LLVMVerifyFunction2 Fn Action o).aborted = true ↔
      (Action = LLVMVerifierFailureAction.LLVMAbortProcessAction ∧
        Fn.broken = true) :=
  verify2_aborted_iff Fn Action o

/-- C6: on a structurally valid function the call returns `false` (not
broken), never aborts, and a requested message buffer receives the empty
string. -/
theorem verify2_valid_function (Fn : LLVMFunction)
    (Action : LLVMVerifierFailureAction) (o : Bool)
    (hvalid : Fn.broken = false) :
    (LLVMVerifyFunction2 Fn Action o).result = false ∧
    (LLVMVerifyFunction2 Fn Action o).aborted = false ∧
    (o = true → (LLVMVerifyFunction2 Fn Action o).outWritten = some "") := by
  have hret : (LLVMVerifyFunction2 Fn Action o).aborted = false := by
    cases h : (LLVMVerifyFunction2 Fn Action o).aborted
    · rfl
    · exact absurd ((verify2_aborted_iff Fn Action o).mp h).2 (by simp [hvalid])
  refine ⟨by rw [verify2_result_eq_broken, hvalid], hret, ?_⟩
  intro ho
  rw [verify2_outWritten Fn Action o hret, ho]
  simp [verifierStreamOutput, hvalid]

/-- Witness for C6 at a concrete valid function with a message buffer. -/
theorem verify2_valid_function_witness :
    (LLVMVerifyFunction2 ⟨false, ""⟩
        LLVMVerifierFailureAction.LLVMPrintMessageAction true).result = false ∧
    (LLVMVerifyFunction2 ⟨false, ""⟩
        LLVMVerifierFailureAction.LLVMPrintMessageAction true).aborted = false ∧
    (true = true → (LLVMVerifyFunction2 ⟨false, ""⟩
        LLVMVerifierFailureAction.LLVMPrintMessageAction true).outWritten =
      some "") :=
  verify2_valid_function ⟨false, ""⟩
    LLVMVerifierFailureAction.LLVMPrintMessageAction true (by decide)

/-- C7: the version calls are pure and constant: from any two process states
both return the same 32-bit value and leave the state untouched. -/
theorem version_calls_pure_constant (s t : ProcState) :
    (LLVMVersionMajor s).1 = (LLVMVersionMajor t).1 ∧
    (LLVMVersionMinor s).1 = (LLVMVersionMinor t).1 ∧
    (LLVMVersionMajor s).2 = s ∧
    (LLVMVersionMinor s).2 = s ∧
    (LLVMVersionMajor s).1 < 2 ^ 32 ∧
    (LLVMVersionMinor s).1 < 2 ^ 32 :=
  ⟨rfl, rfl, rfl, rfl, (by decide : LLVM_VERSION_MAJOR < 2 ^ 32),
    (by decide : LLVM_VERSION_MINOR < 2 ^ 32)⟩

/-- C8: the returned boolean depends only on the function handle — two
returning calls that differ only in failure action and out-parameter
presence return the same boolean. -/
theorem verify2_result_independent_of_action (Fn : LLVMFunction)
    (a₁ a₂ : LLVMVerifierFailureAction) (o₁ o₂ : Bool)
    (_h₁ : (LLVMVerifyFunction2 Fn a₁ o₁).aborted = false)
    (_h₂ : (LLVMVerifyFunction2 Fn a₂ o₂).aborted = false) :
    (LLVMVerifyFunction2 Fn a₁ o₁).result =
      (LLVMVerifyFunction2 Fn a₂ o₂).result := by
  rw [verify2_result_eq_broken, verify2_result_eq_broken]

/-- Witness for C8: a broken function queried with two different actions and
out-parameter choices. -/
theorem verify2_result_independent_witness :
    (LLVMVerifyFunction2 ⟨true, "oops"⟩
        LLVMVerifierFailureAction.LLVMPrintMessageAction true).result =
      (LLVMVerifyFunction2 ⟨true, "oops"⟩
        LLVMVerifierFailureAction.LLVMReturnStatusAction false).result :=
  verify2_result_independent_of_action ⟨true, "oops"⟩
    LLVMVerifierFailureAction.LLVMPrintMessageAction
    LLVMVerifierFailureAction.LLVMReturnStatusAction true false
    (by decide) (by decide)

/-- C9: on every returning call with a requested buffer the out-parameter is
assigned exactly the verifier's text — the empty string on success — and a
null out-parameter is never written. -/
theorem verify2_out_always_assigned (Fn : LLVMFunction)
    (Action : LLVMVerifierFailureAction) (o : Bool)
    (hret : (LLVMVerifyFunction2 Fn Action o).aborted = false) :
    (LLVMVerifyFunction2 Fn Action o).outWritten =
      (if o then some (verifierStreamOutput Fn) else none) ∧
    (Fn.broken = false → verifierStreamOutput Fn = "") := by
  refine ⟨verify2_outWritten Fn Action o hret, ?_⟩
  intro hv
  simp [verifierStreamOutput, hv]

/-- Witness for C9 at a concrete valid function with a requested buffer. -/
theorem verify2_out_always_assigned_witness :
    (LLVMVerifyFunction2 ⟨false, ""⟩
        LLVMVerifierFailureAction.LLVMReturnStatusAction true).outWritten =
      (if true then some (verifierStreamOutput ⟨false, ""⟩) else none) ∧
    ((⟨false, ""⟩ : LLVMFunction).broken = false →
      verifierStreamOutput ⟨false, ""⟩ = "") :=
  verify2_out_always_assigned ⟨false, ""⟩
    LLVMVerifierFailureAction.LLVMReturnStatusAction true (by decide)

/-- C10: on the abort path — abort-process action and a broken function —
the process terminates and the out-parameter is never written, even when it
was requested. -/
theorem verify2_abort_never_writes_out (Fn : LLVMFunction) (o : Bool)
    (hbroken : Fn.broken = true) :
    (LLVMVerifyFunction2 Fn
        LLVMVerifierFailureAction.LLVMAbortProcessAction o).aborted = true ∧
    (LLVMVerifyFunction2 Fn
        LLVMVerifierFailureAction.LLVMAbortProcessAction o).outWritten = none := by
  cases o <;> simp [LLVMVerifyFunction2, hbroken]

/-- Witness for C10 at a concrete broken function with a requested buffer. -/
theorem verify2_abort_never_writes_out_witness :
    (LLVMVerifyFunction2 ⟨true, "oops!"⟩
        LLVMVerifierFailureAction.LLVMAbortProcessAction true).aborted = true ∧
    (LLVMVerifyFunction2 ⟨true, "oops!"⟩
        LLVMVerifierFailureAction.LLVMAbortProcessAction true).outWritten = none :=
  verify2_abort_never_writes_out ⟨true, "oops!"⟩ true (by decide)

/-- Helper: appending a fresh named entry makes lookup of that name find
exactly the appended entry. -/
theorem find?_name_append_fresh (l : List (String × Nat)) (name : String)
    (ty : Nat) (h : ∀ p ∈ l, p.1 ≠ name) :
    (l ++ [(name, ty)]).find? (fun p => p.1 == name) = some (name, ty) := by
  induction l with
  | nil => simp
  | cons a l ih =>
    have ha : (a.1 == name) = false := by
      simpa using h a (List.mem_cons_self a l)
    simp only [List.cons_append, List.find?_cons, ha]
    exact ih fun p hp => h p (List.mem_cons_of_mem a hp)

/-- Helper: after appending a fresh named entry, exactly one entry of that
name is present. -/
theorem filter_name_append_fresh (l : List (String × Nat)) (name : String)
    (ty : Nat) (h : ∀ p ∈ l, p.1 ≠ name) :
    ((l ++ [(name, ty)]).filter (fun p => p.1 == name)).length = 1 := by
  have h1 : l.filter (fun p => p.1 == name) = [] := by
    rw [List.filter_eq_nil_iff]
    intro p hp
    simpa using h p hp
  rw [List.filter_append, h1]
  simp

/-- C4: for a module without the name, get-or-insert-function creates exactly
one declaration with the requested type; a second call with the same name
returns the identical handle, ignores its type argument, and leaves the
module unchanged, so exactly one declaration of that name remains. -/
theorem LLVMGetOrInsertFunction_idempotent (m : LLVMModule) (name : String)
    (ty₁ ty₂ : Nat) (hfresh : ∀ p ∈ m.functions, p.1 ≠ name) :
    (LLVMGetOrInsertFunction m name ty₁).2 = (name, ty₁) ∧
    (LLVMGetOrInsertFunction (LLVMGetOrInsertFunction m name ty₁).1 name ty₂).2 =
      (LLVMGetOrInsertFunction m name ty₁).2 ∧
    (LLVMGetOrInsertFunction (LLVMGetOrInsertFunction m name ty₁).1 name ty₂).1 =
      (LLVMGetOrInsertFunction m name ty₁).1 ∧
    ((LLVMGetOrInsertFunction (LLVMGetOrInsertFunction m name ty₁).1 name
        ty₂).1.functions.filter (fun p => p.1 == name)).length = 1 := by
  have h0 : m.functions.find? (fun p => p.1 == name) = none := by
    rw [List.find?_eq_none]
    intro p hp
    simpa using hfresh p hp
  have h2 : (m.functions ++ [(name, ty₁)]).find? (fun p => p.1 == name) =
      some (name, ty₁) := find?_name_append_fresh m.functions name ty₁ hfresh
  refine ⟨?_, ?_, ?_, ?_⟩ <;>
    simp [LLVMGetOrInsertFunction, getOrInsertFunction, h0, h2,
      filter_name_append_fresh m.functions name ty₁ hfresh] <;>
    exact fun a b hab => hfresh (a, b) hab

/-- Witness for C4: module with no symbol, name `foo`, called twice with the
same type. -/
theorem LLVMGetOrInsertFunction_idempotent_witness :
    (LLVMGetOrInsertFunction ⟨[], []⟩ "foo" 7).2 = ("foo", 7) ∧
    (LLVMGetOrInsertFunction (LLVMGetOrInsertFunction ⟨[], []⟩ "foo" 7).1 "foo"
        7).2 = (LLVMGetOrInsertFunction ⟨[], []⟩ "foo" 7).2 ∧
    (LLVMGetOrInsertFunction (LLVMGetOrInsertFunction ⟨[], []⟩ "foo" 7).1 "foo"
        7).1 = (LLVMGetOrInsertFunction ⟨[], []⟩ "foo" 7).1 ∧
    ((LLVMGetOrInsertFunction (LLVMGetOrInsertFunction ⟨[], []⟩ "foo" 7).1 "foo"
        7).1.functions.filter (fun p => p.1 == "foo")).length = 1 :=
  LLVMGetOrInsertFunction_idempotent ⟨[], []⟩ "foo" 7 7 (by simp)

/-- C5: the same creation and idempotence property for get-or-insert-global
on module-level globals. -/
theorem LLVMGetOrInsertGlobal_idempotent (m : LLVMModule) (name : String)
    (ty₁ ty₂ : Nat) (hfresh : ∀ p ∈ m.globals, p.1 ≠ name) :
    (LLVMGetOrInsertGlobal m name ty₁).2 = (name, ty₁) ∧
    (LLVMGetOrInsertGlobal (LLVMGetOrInsertGlobal m name ty₁).1 name ty₂).2 =
      (LLVMGetOrInsertGlobal m name ty₁).2 ∧
    (LLVMGetOrInsertGlobal (LLVMGetOrInsertGlobal m name ty₁).1 name ty₂).1 =
      (LLVMGetOrInsertGlobal m name ty₁).1 ∧
    ((LLVMGetOrInsertGlobal (LLVMGetOrInsertGlobal m name ty₁).1 name
        ty₂).1.globals.filter (fun p => p.1 == name)).length = 1 := by
  have h0 : m.globals.find? (fun p => p.1 == name) = none := by
    rw [List.find?_eq_none]
    intro p hp
    simpa using hfresh p hp
  have h2 : (m.globals ++ [(name, ty₁)]).find? (fun p => p.1 == name) =
      some (name, ty₁) := find?_name_append_fresh m.globals name ty₁ hfresh
  refine ⟨?_, ?_, ?_, ?_⟩ <;>
    simp [LLVMGetOrInsertGlobal, getOrInsertGlobal, h0, h2,
      filter_name_append_fresh m.globals name ty₁ hfresh] <;>
    exact fun a b hab => hfresh (a, b) hab

/-- Witness for C5: module with no symbol, global `bar`, called twice. -/
theorem LLVMGetOrInsertGlobal_idempotent_witness :
    (LLVMGetOrInsertGlobal ⟨[], []⟩ "bar" 2).2 = ("bar", 2) ∧
    (LLVMGetOrInsertGlobal (LLVMGetOrInsertGlobal ⟨[], []⟩ "bar" 2).1 "bar"
        2).2 = (LLVMGetOrInsertGlobal ⟨[], []⟩ "bar" 2).2 ∧
    (LLVMGetOrInsertGlobal (LLVMGetOrInsertGlobal ⟨[], []⟩ "bar" 2).1 "bar"
        2).1 = (LLVMGetOrInsertGlobal ⟨[], []⟩ "bar" 2).1 ∧
    ((LLVMGetOrInsertGlobal (LLVMGetOrInsertGlobal ⟨[], []⟩ "bar" 2).1 "bar"
        2).1.globals.filter (fun p => p.1 == "bar")).length = 1 :=
  LLVMGetOrInsertGlobal_idempotent ⟨[], []⟩ "bar" 2 2 (by simp)

end LLVMRS
